import Mathlib

/-!
Shallow embedding of TreeSearch (`src/treesearch.py`), a synonym-aware
location search tool for tree species.

The script chains three external HTTP services (the IPNI name index, the
POWO taxonomic-record lookup, and the GlobalTreeSearch occurrence service)
plus an interactive operator prompt. We model the external world as an
`Env` of response oracles and thread an explicit state `St` holding the two
global counters of the script together with a log of every query issued
(the log makes "issues no query" claims statable; the Python code performs
the HTTP request as a side effect instead).

Python semantics captured here:
* `name.split(' ')` is `pySplitSpace` below (split at every single space,
  keeping empty fields; a string without a space, the empty string
  included, yields a one-element list).
* `x is 1` / `x is 0` on CPython ints coincides with `==` for these small
  interned values, and `ipni_id is not ''` coincides with `≠ ""` because
  CPython keeps a unique empty-string object.
* a `dict[key]` access on a missing key raises `KeyError`, which only
  `except RequestException` blocks do NOT catch; fields that may be absent
  are `Option`s and a missing-key access yields `PyErr.keyError`.
* `genus, species = name.split(' ')[:2]` raises `ValueError` when the list
  has fewer than two elements.
* a Python `set` of strings is a duplicate-free `List String`; `set(xs)`
  is `xs.eraseDups`. CPython iterates a set in an unspecified hash order;
  we fix first-occurrence order as the canonical representative (no claim
  depends on the order, only on membership and emptiness).
-/

/-- Python `cs.split(' ')` on a list of characters: split at every single
space, keeping empty fields (so `[] ↦ [[]]` models `'' ↦ ['']`). -/
def splitCharsOnSpace : List Char → List (List Char)
  | [] => [[]]
  | c :: cs =>
      let rest := splitCharsOnSpace cs
      if c = ' ' then [] :: rest
      else
        match rest with
        | [] => [[c]]
        | g :: gs => (c :: g) :: gs

/-- Python `name.split(' ')`. -/
def pySplitSpace (s : String) : List String :=
  (splitCharsOnSpace s.data).map String.mk

/-- Python `'y' in reply.lower()`. -/
def pyLowerHasY (s : String) : Bool :=
  (s.data.map Char.toLower).contains 'y'

/-- Python exceptions relevant to the embedded code: `requestException` is
`requests.exceptions.RequestException`, `keyError` a failed dict key access,
`valueError` a failed tuple unpacking. -/
inductive PyErr where
  | requestException
  | keyError
  | valueError
deriving DecidableEq, Repr

/-- A query issued to one of the three external services. -/
inductive Query where
  | ipni (genus species author : String)
  | powo (ipniId : String)
  | gts (genus species : String)
deriving DecidableEq, Repr

/-- Process state: the two global counters of `treesearch.py`, plus a log of
every query issued to an external service (recorded at the moment the HTTP
request is made, whether or not it then fails). -/
structure St where
  TOTAL_NAMES_PROCESSED : Nat := 0
  TOTAL_LOCATION_QUERIES_SUCCEEDED : Nat := 0
  log : List Query := []
deriving DecidableEq, Repr

/-- The `accepted` sub-record of a `powo.lookup` result; both fields may be
absent in the JSON. -/
structure AcceptedRef where
  name : Option String := none
  fqId : Option String := none
deriving DecidableEq, Repr

/-- A `powo.lookup` result record. `synonyms` is reduced to the `name` field
of each synonym entry; `taxonomicStatus`, `synonyms` and `accepted` may each
be absent from the JSON record. -/
structure PowoRecord where
  taxonomicStatus : Option String := none
  synonyms : Option (List String) := none
  accepted : Option AcceptedRef := none
deriving DecidableEq, Repr

/-- A GlobalTreeSearch JSON response: `results` is the list of result
entries, each reduced to the `country` fields of its `TSGeolinks` list. -/
structure GtsResp where
  results : List (List String)
deriving DecidableEq, Repr

/-- The external world: the three remote services and the interactive
operator. `.error ()` models a raised `RequestException`. `ipniSearch`
returns the `fqId` of each hit; the `size()` reported by the search result
is the length of this list. `reply` is the operator's answer to the
`Continue? [y/n]` prompt after the occurrence query for `name` failed. -/
structure Env where
  ipniSearch : String → String → String → Except Unit (List String)
  powoLookup : String → Except Unit PowoRecord
  gtsGet : String → String → Except Unit GtsResp
  reply : String → String

/-- `get_ipni_id(genus, species, author)` of `treesearch.py` (lines
105-128): queries the IPNI name index; returns the single hit's `fqId` when
the search succeeds with exactly one hit, and the empty string when the
query raises `RequestException` or the hit count is 0 or ≥ 2. -/
def get_ipni_id (env : Env) (st : St) (genus species author : String) :
    St × String :=
  let st := { st with log := st.log ++ [Query.ipni genus species author] }
  match env.ipniSearch genus species author with
  | Except.error _ => (st, "")
  | Except.ok hits =>
      if hits.length = 1 then (st, hits.headD "") else (st, "")

/-- `get_synonyms(ipni_id)` of `treesearch.py` (lines 131-172). Empty id:
no query, empty list. Otherwise a POWO lookup; a `RequestException` there is
caught (empty list). On an `Accepted` record the `synonyms` names are
returned (empty list when the field is absent). On a `Synonym` record the
code prints the accepted name (`KeyError` when `accepted` or its `name` is
absent), looks up the accepted record's `fqId` (`KeyError` when absent),
fetches that record (a `RequestException` there is caught, keeping the
empty list), reads its `synonyms` (`KeyError` when absent) — and then, when
the ORIGINAL record has a `synonyms` key, overwrites the result with the
original record's synonyms (lines 160-162). Missing `taxonomicStatus` is a
`KeyError`; any other status value keeps the empty list. -/
def get_synonyms (env : Env) (st : St) (ipni_id : String) :
    St × Except PyErr (List String) :=
  if ipni_id = "" then (st, Except.ok [])
  else
    let st := { st with log := st.log ++ [Query.powo ipni_id] }
    match env.powoLookup ipni_id with
    | Except.error _ => (st, Except.ok [])
    | Except.ok r =>
        match r.taxonomicStatus with
        | none => (st, Except.error PyErr.keyError)
        | some status =>
            if status = "Accepted" then
              (st, Except.ok (r.synonyms.getD []))
            else if status = "Synonym" then
              match r.accepted with
              | none => (st, Except.error PyErr.keyError)
              | some acc =>
                  match acc.name with
                  | none => (st, Except.error PyErr.keyError)
                  | some _ =>
                      match acc.fqId with
                      | none => (st, Except.error PyErr.keyError)
                      | some fq =>
                          let st :=
                            { st with log := st.log ++ [Query.powo fq] }
                          match env.powoLookup fq with
                          | Except.error _ => (st, Except.ok [])
                          | Except.ok r2 =>
                              match r2.synonyms with
                              | none => (st, Except.error PyErr.keyError)
                              | some syns2 =>
                                  match r.synonyms with
                                  | some syns1 => (st, Except.ok syns1)
                                  | none => (st, Except.ok syns2)
            else (st, Except.ok [])

/-- `get_locations_from_gts(name)` of `treesearch.py` (lines 175-208):
increments `TOTAL_NAMES_PROCESSED` first; unpacking the first two tokens
raises `ValueError` on a short name; then one GET to the occurrence
service. On success with ≥ 1 result entries it increments
`TOTAL_LOCATION_QUERIES_SUCCEEDED` and returns the deduplicated country
set; on success with 0 entries it returns the empty set; on
`RequestException` it prompts the operator and re-raises the exception
unless the lowercased reply contains `y`. -/
def get_locations_from_gts (env : Env) (st : St) (name : String) :
    St × Except PyErr (List String) :=
  let st :=
    { st with TOTAL_NAMES_PROCESSED := st.TOTAL_NAMES_PROCESSED + 1 }
  match pySplitSpace name with
  | genus :: species :: _ =>
      let st := { st with log := st.log ++ [Query.gts genus species] }
      match env.gtsGet genus species with
      | Except.ok resp =>
          if 0 < resp.results.length then
            let st :=
              { st with TOTAL_LOCATION_QUERIES_SUCCEEDED :=
                  st.TOTAL_LOCATION_QUERIES_SUCCEEDED + 1 }
            (st, Except.ok resp.results.flatten.eraseDups)
          else (st, Except.ok [])
      | Except.error _ =>
          if pyLowerHasY (env.reply name) then (st, Except.ok [])
          else (st, Except.error PyErr.requestException)
  | _ => (st, Except.error PyErr.valueError)

/-- The `for syn in synonyms: locations.extend(get_locations_from_gts(syn))`
loop of `get_locations` (lines 98-100): accumulates the concatenation of
the per-name location sets; an exception from `get_locations_from_gts`
propagates. -/
def gts_loop (env : Env) : St → List String → List String →
    St × Except PyErr (List String)
  | st, acc, [] => (st, Except.ok acc)
  | st, acc, n :: ns =>
      match get_locations_from_gts env st n with
      | (st', Except.ok locs) => gts_loop env st' (acc ++ locs) ns
      | (st', Except.error e) => (st', Except.error e)

/-- `return set(locations)` (line 102): deduplicate the accumulated
location list on the success path, propagate the exception otherwise. -/
def set_of_locations : St × Except PyErr (List String) →
    St × Except PyErr (List String)
  | (st, Except.ok locs) => (st, Except.ok locs.eraseDups)
  | (st, Except.error e) => (st, Except.error e)

/-- `get_locations(name, author)` of `treesearch.py` (lines 77-102): a name
without two space-separated parts is rejected with an empty set and no
query; otherwise resolve the IPNI id, fetch the synonym list, append the
original name, extend the location list over that combined list, and return
`set(locations)`. -/
def get_locations (env : Env) (st : St) (name author : String) :
    St × Except PyErr (List String) :=
  match pySplitSpace name with
  | genus :: species :: _ =>
      let p := get_ipni_id env st genus species author
      match get_synonyms env p.1 p.2 with
      | (st2, Except.ok syns) =>
          set_of_locations (gts_loop env st2 [] (syns ++ [name]))
      | (st2, Except.error e) => (st2, Except.error e)
  | _ => (st, Except.ok [])

/-- `'; '.join(current_locs)` (line 268), joining the location set in its
canonical order. -/
def joinLocs (locs : List String) : String :=
  String.intercalate "; " locs

/-- One input row of the batch: the `Name` and `Author` cells, `none`
modelling the `NaN` a missing cell becomes under `pandas.read_csv`. -/
abbrev Row := Option String × Option String

/-- Outcome of the `__main__` batch loop (lines 259-280): `completed` and
`aborted` carry the `locations` column that is then attached to the data
frame and emitted (the `break` on `RequestException` keeps the rows not yet
processed as empty strings); `crashed` models an uncaught exception, which
kills the script before any output is produced. -/
inductive BatchOutcome where
  | completed (locations : List String)
  | aborted (locations : List String)
  | crashed (e : PyErr)
deriving DecidableEq, Repr

/-- The `__main__` batch loop of `treesearch.py` (lines 259-280):
`locations = [''] * len(data)`; rows with a missing `Name` or `Author` are
skipped (their entry stays `''`); otherwise `get_locations` runs and its
result set is `'; '`-joined into the row's entry; a `RequestException`
breaks the loop, leaving the current and every remaining entry `''`, and
the collected column is still emitted; any other exception crashes the
script. -/
def runBatch (env : Env) (st : St) : List Row → St × BatchOutcome
  | [] => (st, BatchOutcome.completed [])
  | (name?, author?) :: rest =>
      match name?, author? with
      | some name, some author =>
          match get_locations env st name author with
          | (st', Except.ok locs) =>
              (match runBatch env st' rest with
               | (st2, BatchOutcome.completed l) =>
                   (st2, BatchOutcome.completed (joinLocs locs :: l))
               | (st2, BatchOutcome.aborted l) =>
                   (st2, BatchOutcome.aborted (joinLocs locs :: l))
               | (st2, BatchOutcome.crashed e) =>
                   (st2, BatchOutcome.crashed e))
          | (st', Except.error PyErr.requestException) =>
              (st', BatchOutcome.aborted ("" :: List.replicate rest.length ""))
          | (st', Except.error e) => (st', BatchOutcome.crashed e)
      | _, _ =>
          match runBatch env st rest with
          | (st2, BatchOutcome.completed l) =>
              (st2, BatchOutcome.completed ("" :: l))
          | (st2, BatchOutcome.aborted l) =>
              (st2, BatchOutcome.aborted ("" :: l))
          | (st2, BatchOutcome.crashed e) =>
              (st2, BatchOutcome.crashed e)

/-- Did the occurrence-service query that `get_locations_from_gts name`
issues succeed with at least one result entry? (`false` also when the name
is too short for a query to be issued at all.) -/
def gtsHit (env : Env) (name : String) : Bool :=
  match pySplitSpace name with
  | genus :: species :: _ =>
      match env.gtsGet genus species with
      | Except.ok resp => 0 < resp.results.length
      | Except.error _ => false
  | _ => false

/-- The initial process state: both counters zero, nothing queried yet. -/
def st0 : St := {}

/-- A world in which every service request raises `RequestException` and
the operator answers `n` to the continue prompt. -/
def envDown : Env where
  ipniSearch := fun _ _ _ => Except.error ()
  powoLookup := fun _ => Except.error ()
  gtsGet := fun _ _ => Except.error ()
  reply := fun _ => "n"

/-- Unfolding `get_locations` on a name with at least two tokens. -/
theorem get_locations_split (env : Env) (st : St) (name author genus species :
    String) (rest : List String)
    (hsplit : pySplitSpace name = genus :: species :: rest) :
    get_locations env st name author =
      (match get_synonyms env (get_ipni_id env st genus species author).1
          (get_ipni_id env st genus species author).2 with
       | (st2, Except.ok syns) =>
           set_of_locations (gts_loop env st2 [] (syns ++ [name]))
       | (st2, Except.error e) => (st2, Except.error e)) := by
  unfold get_locations
  simp only [hsplit]

/-- C9: called with the empty string as taxonomic ID, `get_synonyms`
returns the empty list immediately and leaves the state — in particular the
query log — unchanged: no lookup query is issued to the synonym service. -/
theorem C9_empty_id_no_query (env : Env) (st : St) :
    get_synonyms env st "" = (st, Except.ok []) := by
  simp [get_synonyms]

/-- C8: a name splitting into fewer than two space-separated tokens makes
`get_locations` return the empty set with the state — in particular the
query log — unchanged: no query is issued to any of the three services. -/
theorem C8_short_name_no_queries (env : Env) (st : St) (name author : String)
    (h : (pySplitSpace name).length ≤ 1) :
    get_locations env st name author = (st, Except.ok []) := by
  unfold get_locations
  split
  · rename_i genus species rest heq
    rw [heq] at h
    simp at h
  · rfl

/-- C8 witness: the one-token name `Quercus` yields the empty set and no
query in the all-services-down world. -/
theorem C8_short_name_no_queries_witness :
    (pySplitSpace "Quercus").length ≤ 1 ∧
      get_locations envDown st0 "Quercus" "L." = (st0, Except.ok []) :=
  ⟨by decide, C8_short_name_no_queries envDown st0 "Quercus" "L." (by decide)⟩

/-- C5: every `get_locations_from_gts` call increments
`TOTAL_NAMES_PROCESSED` by exactly one whatever the outcome, and increments
`TOTAL_LOCATION_QUERIES_SUCCEEDED` by exactly one when the occurrence
service responds successfully with at least one result entry (`gtsHit`) and
leaves it unchanged otherwise. -/
theorem C5_counter_invariant (env : Env) (st : St) (name : String) :
    (get_locations_from_gts env st name).1.TOTAL_NAMES_PROCESSED
        = st.TOTAL_NAMES_PROCESSED + 1 ∧
      (get_locations_from_gts env st name).1.TOTAL_LOCATION_QUERIES_SUCCEEDED
        = st.TOTAL_LOCATION_QUERIES_SUCCEEDED
            + (if gtsHit env name then 1 else 0) := by
  unfold get_locations_from_gts gtsHit
  rcases h : pySplitSpace name with _ | ⟨g, _ | ⟨s, r⟩⟩
  · simp
  · simp
  · cases hg : env.gtsGet g s with
    | ok resp =>
        by_cases hr : 0 < resp.results.length <;> simp [hg, hr]
    | error e =>
        by_cases hy : pyLowerHasY (env.reply name) <;> simp [hg, hy]

/-- C10: when the occurrence-service query fails, `get_locations_from_gts`
re-raises the failure exactly when the lowercased operator reply does not
contain the character `y`; any reply containing `y` (also e.g. `nay`)
continues with the empty set for this call. -/
theorem C10_abort_iff_no_y (env : Env) (st : St) (name genus species : String)
    (rest : List String)
    (hsplit : pySplitSpace name = genus :: species :: rest)
    (hfail : env.gtsGet genus species = Except.error ()) :
    ((get_locations_from_gts env st name).2
        = Except.error PyErr.requestException
      ↔ pyLowerHasY (env.reply name) = false) ∧
    (pyLowerHasY (env.reply name) = true →
      (get_locations_from_gts env st name).2 = Except.ok []) := by
  unfold get_locations_from_gts
  simp only [hsplit, hfail]
  cases hy : pyLowerHasY (env.reply name) <;> simp [hy]

/-- A world in which every service request raises and the operator answers
`nay` — a reply that contains the character `y`. -/
def envDownNay : Env where
  ipniSearch := fun _ _ _ => Except.error ()
  powoLookup := fun _ => Except.error ()
  gtsGet := fun _ _ => Except.error ()
  reply := fun _ => "nay"

/-- C10 witness: the reply `nay` contains a `y`, so the failed query is
swallowed and the call returns the empty set. -/
theorem C10_abort_iff_no_y_witness :
    (get_locations_from_gts envDownNay st0 "Quercus robur").2
      = Except.ok [] :=
  (C10_abort_iff_no_y envDownNay st0 "Quercus robur" "Quercus" "robur" []
    (by decide) rfl).2 (by decide)

/-- C6: `get_ipni_id` returns the single hit's identifier exactly when the
name-index query succeeds with exactly one match, and the empty string when
the query raises or returns zero or at least two matches. -/
theorem C6_ipni_id_characterization (env : Env) (st : St)
    (genus species author : String) :
    (∀ hits, env.ipniSearch genus species author = Except.ok hits →
        hits.length = 1 →
        (get_ipni_id env st genus species author).2 = hits.headD "") ∧
    (∀ hits, env.ipniSearch genus species author = Except.ok hits →
        hits.length ≠ 1 →
        (get_ipni_id env st genus species author).2 = "") ∧
    (env.ipniSearch genus species author = Except.error () →
        (get_ipni_id env st genus species author).2 = "") := by
  refine ⟨?_, ?_, ?_⟩
  · intro hits hq hlen
    unfold get_ipni_id
    rw [hq]
    simp [hlen]
  · intro hits hq hlen
    unfold get_ipni_id
    rw [hq]
    simp [hlen]
  · intro hq
    unfold get_ipni_id
    rw [hq]

/-- A world whose name index finds exactly one record. -/
def envOneHit : Env where
  ipniSearch := fun _ _ _ => Except.ok ["urn:lsid:ipni.org:names:295763-1"]
  powoLookup := fun _ => Except.error ()
  gtsGet := fun _ _ => Except.ok ⟨[]⟩
  reply := fun _ => "y"

/-- C6 witness: with exactly one hit, its identifier is returned. -/
theorem C6_ipni_id_characterization_witness :
    (get_ipni_id envOneHit st0 "Quercus" "robur" "L.").2
      = "urn:lsid:ipni.org:names:295763-1" :=
  (C6_ipni_id_characterization envOneHit st0 "Quercus" "robur" "L.").1
    ["urn:lsid:ipni.org:names:295763-1"] rfl (by decide)

/-- A world exhibiting the overwrite in the `Synonym` branch of
`get_synonyms`: the record of `ID0` has status `Synonym`, its own synonym
list `["Original syn"]` and an accepted link to `IDACC`, whose record lists
`["Accepted syn"]`. -/
def envSynOverwrite : Env where
  ipniSearch := fun _ _ _ => Except.error ()
  powoLookup := fun ipniId =>
    if ipniId = "ID0" then
      Except.ok
        { taxonomicStatus := some "Synonym",
          synonyms := some ["Original syn"],
          accepted := some { name := some "Accepted name",
                             fqId := some "IDACC" } }
    else
      Except.ok
        { taxonomicStatus := some "Accepted",
          synonyms := some ["Accepted syn"] }
  gtsGet := fun _ _ => Except.error ()
  reply := fun _ => "n"

/-- C1: contrary to the claim and to the function's own docstring, on a
`Synonym` record that itself carries a `synonyms` key, `get_synonyms`
performs the second lookup but then overwrites its result with the ORIGINAL
record's synonym list (lines 160-162 of `treesearch.py`): here it returns
`["Original syn"]`, not the accepted record's `["Accepted syn"]`. -/
theorem C1_synonym_branch_eval :
    (get_synonyms envSynOverwrite st0 "ID0").2 = Except.ok ["Original syn"]
      ∧ (get_synonyms envSynOverwrite st0 "ID0").2
          ≠ Except.ok ["Accepted syn"] := by
  constructor
  · rfl
  · intro h
    rw [show (get_synonyms envSynOverwrite st0 "ID0").2
          = Except.ok ["Original syn"] from rfl] at h
    simp at h

/-- A world whose synonym-service record lacks the `taxonomicStatus`
field. -/
def envNoStatus : Env where
  ipniSearch := fun _ _ _ => Except.error ()
  powoLookup := fun _ => Except.ok { taxonomicStatus := none }
  gtsGet := fun _ _ => Except.error ()
  reply := fun _ => "n"

/-- C3 counterexample: on a record with the `taxonomicStatus` field absent,
`get_synonyms` raises `KeyError` (the uncaught `lookup_res['taxonomicStatus']`
access of line 148) instead of returning the empty list. -/
theorem C3_counterexample :
    (get_synonyms envNoStatus st0 "ID1").2 = Except.error PyErr.keyError
      ∧ (get_synonyms envNoStatus st0 "ID1").2 ≠ Except.ok [] := by
  constructor
  · rfl
  · intro h
    rw [show (get_synonyms envNoStatus st0 "ID1").2
          = Except.error PyErr.keyError from rfl] at h
    simp at h

/-- C3 amended: a record whose `taxonomicStatus` is present but neither
`Accepted` nor `Synonym` yields the empty synonym list, and an `Accepted`
record without a `synonyms` field also yields the empty list; a record with
the `taxonomicStatus` field absent instead raises `KeyError`. -/
theorem C3_amended_zero_synonyms (env : Env) (st : St) (ipniId : String)
    (r : PowoRecord) (hid : ipniId ≠ "")
    (hr : env.powoLookup ipniId = Except.ok r) :
    (∀ s, r.taxonomicStatus = some s → s ≠ "Accepted" → s ≠ "Synonym" →
        (get_synonyms env st ipniId).2 = Except.ok []) ∧
    (r.taxonomicStatus = some "Accepted" → r.synonyms = none →
        (get_synonyms env st ipniId).2 = Except.ok []) := by
  constructor
  · intro s hs hacc hsyn
    unfold get_synonyms
    simp only [if_neg hid, hr, hs]
    simp [hacc, hsyn]
  · intro hs hnone
    unfold get_synonyms
    simp only [if_neg hid, hr, hs]
    simp [hnone]

/-- A world whose synonym-service records carry the unhandled status
`Unplaced`. -/
def envUnplaced : Env where
  ipniSearch := fun _ _ _ => Except.error ()
  powoLookup := fun _ => Except.ok { taxonomicStatus := some "Unplaced" }
  gtsGet := fun _ _ => Except.error ()
  reply := fun _ => "n"

/-- C3 amended witness: the status `Unplaced` is treated as zero
synonyms. -/
theorem C3_amended_zero_synonyms_witness :
    (get_synonyms envUnplaced st0 "ID2").2 = Except.ok [] :=
  (C3_amended_zero_synonyms envUnplaced st0 "ID2"
      { taxonomicStatus := some "Unplaced" } (by decide) rfl).1
    "Unplaced" rfl (by decide) (by decide)

/-- C2 counterexample: with the well-formed two-token name `Quercus robur`,
the occurrence service failing and the operator replying `n`,
`get_locations` re-raises the `RequestException` (the hard abort of lines
202-206) instead of returning a set, refuting the claim for the
failure/abort path it quantifies over. -/
theorem C2_counterexample :
    (get_locations envDown st0 "Quercus robur" "L.").2
      = Except.error PyErr.requestException := by
  rfl

/-- A synonym-service record that cannot steer `get_synonyms` into an
uncaught `KeyError` and whose synonym names are themselves two-token (so
they cannot steer `get_locations_from_gts` into a `ValueError`): the status
field is present, the synonym list is present with two-token names, and a
`Synonym` status comes with a fully populated accepted link. -/
def SafeRecord (r : PowoRecord) : Prop :=
  r.taxonomicStatus ≠ none ∧
    (∃ l, r.synonyms = some l ∧ ∀ s ∈ l, 2 ≤ (pySplitSpace s).length) ∧
    (r.taxonomicStatus = some "Synonym" →
      ∃ acc, r.accepted = some acc ∧ acc.name ≠ none ∧ acc.fqId ≠ none)

/-- Under `SafeRecord` responses, `get_synonyms` never raises, and every
synonym it returns is a two-token name. -/
theorem get_synonyms_safe (env : Env)
    (hsafe : ∀ ipniId r, env.powoLookup ipniId = Except.ok r → SafeRecord r)
    (st : St) (ipniId : String) :
    ∃ st' syns, get_synonyms env st ipniId = (st', Except.ok syns) ∧
      ∀ s ∈ syns, 2 ≤ (pySplitSpace s).length := by
  unfold get_synonyms
  by_cases hid : ipniId = ""
  · exact ⟨st, [], by simp [hid], by simp⟩
  · simp only [if_neg hid]
    cases hq : env.powoLookup ipniId with
    | error e =>
        exact ⟨{ st with log := st.log ++ [Query.powo ipniId] }, [],
          by simp [hq], by simp⟩
    | ok r =>
        obtain ⟨hst, ⟨l, hsyn, hl⟩, hacc⟩ := hsafe ipniId r hq
        cases hts : r.taxonomicStatus with
        | none => exact absurd hts hst
        | some status =>
            by_cases hAcc : status = "Accepted"
            · refine ⟨{ st with log := st.log ++ [Query.powo ipniId] }, l,
                ?_, hl⟩
              simp [hq, hts, hAcc, hsyn]
            · by_cases hSyn : status = "Synonym"
              · obtain ⟨acc, haccEq, hname, hfq⟩ := hacc (hSyn ▸ hts)
                cases hn : acc.name with
                | none => exact absurd hn hname
                | some nm =>
                    cases hf : acc.fqId with
                    | none => exact absurd hf hfq
                    | some fq =>
                        cases hq2 : env.powoLookup fq with
                        | error e =>
                            refine ⟨{ st with log := st.log
                                ++ [Query.powo ipniId] ++ [Query.powo fq] },
                              [], ?_, by simp⟩
                            simp [hq, hts, hAcc, hSyn, haccEq, hn, hf, hq2]
                        | ok r2 =>
                            obtain ⟨_, ⟨l2, hsyn2, _⟩, _⟩ := hsafe fq r2 hq2
                            refine ⟨{ st with log := st.log
                                ++ [Query.powo ipniId] ++ [Query.powo fq] },
                              l, ?_, hl⟩
                            simp [hq, hts, hAcc, hSyn, haccEq, hn, hf, hq2,
                              hsyn2, hsyn]
              · refine ⟨{ st with log := st.log ++ [Query.powo ipniId] }, [],
                  ?_, by simp⟩
                simp [hq, hts, hAcc, hSyn]

/-- A two-token name whose occurrence-service failure is answered with a
reply containing `y` cannot make `get_locations_from_gts` raise. -/
theorem get_locations_from_gts_ok (env : Env) (st : St) (n : String)
    (hn : 2 ≤ (pySplitSpace n).length)
    (hy : pyLowerHasY (env.reply n) = true) :
    ∃ st' locs, get_locations_from_gts env st n = (st', Except.ok locs) := by
  unfold get_locations_from_gts
  rcases hsp : pySplitSpace n with _ | ⟨g, _ | ⟨s, r⟩⟩
  · rw [hsp] at hn; simp at hn
  · rw [hsp] at hn; simp at hn
  · cases hg : env.gtsGet g s with
    | ok resp =>
        by_cases hr : 0 < resp.results.length
        · exact ⟨{ st with
              TOTAL_NAMES_PROCESSED := st.TOTAL_NAMES_PROCESSED + 1,
              TOTAL_LOCATION_QUERIES_SUCCEEDED :=
                st.TOTAL_LOCATION_QUERIES_SUCCEEDED + 1,
              log := st.log ++ [Query.gts g s] },
            resp.results.flatten.eraseDups, by simp [hsp, hg, hr]⟩
        · exact ⟨{ st with
              TOTAL_NAMES_PROCESSED := st.TOTAL_NAMES_PROCESSED + 1,
              log := st.log ++ [Query.gts g s] },
            [], by simp [hsp, hg, hr]⟩
    | error e =>
        exact ⟨{ st with
            TOTAL_NAMES_PROCESSED := st.TOTAL_NAMES_PROCESSED + 1,
            log := st.log ++ [Query.gts g s] },
          [], by simp [hsp, hg, hy]⟩

/-- Unfolding one step of the location loop. -/
theorem gts_loop_cons (env : Env) (st : St) (acc : List String) (n : String)
    (ns : List String) :
    gts_loop env st acc (n :: ns) =
      match get_locations_from_gts env st n with
      | (st', Except.ok locs) => gts_loop env st' (acc ++ locs) ns
      | (st', Except.error e) => (st', Except.error e) := rfl

/-- When every name in the list is two-token and every operator reply
contains `y`, the location loop never raises. -/
theorem gts_loop_ok (env : Env)
    (hy : ∀ n, pyLowerHasY (env.reply n) = true) (names : List String)
    (hnames : ∀ n ∈ names, 2 ≤ (pySplitSpace n).length) :
    ∀ st acc, ∃ st' locs, gts_loop env st acc names
      = (st', Except.ok locs) := by
  induction names with
  | nil => exact fun st acc => ⟨st, acc, rfl⟩
  | cons n ns ih =>
      intro st acc
      obtain ⟨st1, locs1, h1⟩ :=
        get_locations_from_gts_ok env st n
          (hnames n (List.mem_cons_self n ns)) (hy n)
      obtain ⟨st2, locs2, h2⟩ :=
        ih (fun m hm => hnames m (List.mem_cons_of_mem n hm)) st1
          (acc ++ locs1)
      exact ⟨st2, locs2, by rw [gts_loop_cons, h1]; exact h2⟩

/-- C2 amended: for a well-formed two-token name, `get_locations` returns a
(possibly empty) set PROVIDED every operator reply to the continue prompt
contains `y` and the synonym service only serves `SafeRecord` responses. As
literally stated the claim is false: in the occurrence-service abort path
(a reply without `y`) the call re-raises the failure, and malformed
synonym-service records raise uncaught `KeyError`s
(see the C2 counterexample). -/
theorem C2_amended_no_raise (env : Env) (st : St) (name author : String)
    (hname : 2 ≤ (pySplitSpace name).length)
    (hy : ∀ n, pyLowerHasY (env.reply n) = true)
    (hsafe : ∀ ipniId r, env.powoLookup ipniId = Except.ok r → SafeRecord r) :
    ∃ locs, (get_locations env st name author).2 = Except.ok locs := by
  rcases hsp : pySplitSpace name with _ | ⟨g, _ | ⟨s, r⟩⟩
  · rw [hsp] at hname; simp at hname
  · rw [hsp] at hname; simp at hname
  · rw [get_locations_split env st name author g s r hsp]
    obtain ⟨st2, syns, hsyn, hsynTok⟩ :=
      get_synonyms_safe env hsafe (get_ipni_id env st g s author).1
        (get_ipni_id env st g s author).2
    rw [hsyn]
    have htok : ∀ n ∈ syns ++ [name], 2 ≤ (pySplitSpace n).length := by
      intro n hn
      rcases List.mem_append.mp hn with h | h
      · exact hsynTok n h
      · rw [List.mem_singleton.mp h, hsp]
        simp
    obtain ⟨st3, locs, hloop⟩ := gts_loop_ok env hy (syns ++ [name]) htok st2 []
    exact ⟨locs.eraseDups, by simp only [hloop, set_of_locations]⟩

/-- A fully healthy world: one name-index hit, a safe `Accepted` record
with one two-token synonym, occurrence data for everything, a `y` reply. -/
def envHealthy : Env where
  ipniSearch := fun _ _ _ => Except.ok ["urn:lsid:ipni.org:names:295763-1"]
  powoLookup := fun _ =>
    Except.ok { taxonomicStatus := some "Accepted",
                synonyms := some ["Quercus pedunculata"] }
  gtsGet := fun _ _ => Except.ok ⟨[["Germany"], ["Germany", "France"]]⟩
  reply := fun _ => "y"

/-- C2 amended witness: in the healthy world the amended statement yields a
set for `Quercus robur`. -/
theorem C2_amended_no_raise_witness :
    ∃ locs, (get_locations envHealthy st0 "Quercus robur" "L.").2
      = Except.ok locs :=
  C2_amended_no_raise envHealthy st0 "Quercus robur" "L." (by decide)
    (fun n => (by decide : pyLowerHasY "y" = true))
    (fun ipniId r h => by
      cases h
      exact ⟨by decide, ⟨["Quercus pedunculata"], rfl, by decide⟩,
        fun hs => by simp at hs⟩)

/-- C7: for a well-formed two-token name, whenever the synonym fetch
returns a list, `get_locations` hands the occurrence-service loop exactly
that list with the original full name appended — so the original name is
always among the names queried for locations — and on the empty-ID path
the synonym fetch returns the empty list, so the loop receives the
original name alone. -/
theorem C7_original_name_always_queried (env : Env) (st : St)
    (name author genus species : String) (rest : List String)
    (hsplit : pySplitSpace name = genus :: species :: rest) :
    (∀ st2 syns,
        get_synonyms env (get_ipni_id env st genus species author).1
            (get_ipni_id env st genus species author).2
          = (st2, Except.ok syns) →
        name ∈ syns ++ [name] ∧
          get_locations env st name author
            = set_of_locations (gts_loop env st2 [] (syns ++ [name]))) ∧
    ((get_ipni_id env st genus species author).2 = "" →
        get_locations env st name author
          = set_of_locations
              (gts_loop env (get_ipni_id env st genus species author).1 []
                [name])) := by
  constructor
  · intro st2 syns hsyn
    refine ⟨List.mem_append_right _ (List.mem_singleton.mpr rfl), ?_⟩
    simp only [get_locations_split env st name author genus species rest
      hsplit, hsyn]
  · intro hid
    have h0 : get_synonyms env (get_ipni_id env st genus species author).1
        (get_ipni_id env st genus species author).2
        = ((get_ipni_id env st genus species author).1, Except.ok []) := by
      rw [hid]
      simp [get_synonyms]
    simp only [get_locations_split env st name author genus species rest
      hsplit, h0, List.nil_append]

/-- C7 witness: with the name index down, the loop receives exactly
`["Quercus robur"]`. -/
theorem C7_original_name_always_queried_witness :
    get_locations envDown st0 "Quercus robur" "L."
      = set_of_locations (gts_loop envDown
          { log := [Query.ipni "Quercus" "robur" "L."] } []
          ["Quercus robur"]) :=
  (C7_original_name_always_queried envDown st0 "Quercus robur" "L."
    "Quercus" "robur" [] (by decide)).2 rfl

/-- C4: when some row's `get_locations` call re-raises the
occurrence-service failure (the operator answered without a `y`), the batch
loop stops at once: every row processed before it keeps its filled
`Locations` string, the aborting row and every remaining row keep the empty
string, and the outcome is `aborted` — the collected column is still
attached to the data frame and emitted. -/
theorem C4_abort_terminates_batch (env : Env) (st1 st2 : St)
    (name author : String) (rest : List Row) :
    ∀ (pre : List Row) (st : St) (lpre : List String),
      runBatch env st pre = (st1, BatchOutcome.completed lpre) →
      get_locations env st1 name author
          = (st2, Except.error PyErr.requestException) →
      runBatch env st (pre ++ (some name, some author) :: rest)
        = (st2, BatchOutcome.aborted
            (lpre ++ "" :: List.replicate rest.length "")) := by
  intro pre
  induction pre with
  | nil =>
      intro st lpre hpre habort
      simp only [runBatch, Prod.mk.injEq] at hpre
      obtain ⟨rfl, hl⟩ := hpre
      obtain rfl : lpre = [] := by
        cases hl
        rfl
      simp only [List.nil_append, runBatch, habort]
  | cons row pre ih =>
      intro st lpre hpre habort
      rcases row with ⟨_ | n, _ | a⟩
      case mk.none.none | mk.none.some | mk.some.none =>
        simp only [runBatch] at hpre
        split at hpre
        · rename_i hrec
          simp only [Prod.mk.injEq] at hpre
          obtain ⟨rfl, hl⟩ := hpre
          obtain rfl : lpre = "" :: _ := by
            cases hl
            rfl
          have hih := ih _ _ hrec habort
          simp only [List.cons_append, runBatch, List.append_eq, hih]
        · simp at hpre
        · simp at hpre
      case mk.some.some =>
        simp only [runBatch] at hpre
        split at hpre
        · rename_i hgl
          split at hpre
          · rename_i hrec
            simp only [Prod.mk.injEq] at hpre
            obtain ⟨rfl, hl⟩ := hpre
            obtain rfl : lpre = joinLocs _ :: _ := by
              cases hl
              rfl
            have hih := ih _ _ hrec habort
            simp only [List.cons_append, runBatch, List.append_eq, hgl, hih]
          · simp at hpre
          · simp at hpre
        · simp at hpre
        · simp at hpre

/-- A world with occurrence data for the genus `Alpha` only, every other
occurrence query failing, the name index down, and an operator who answers
`n`. -/
def envPartial : Env where
  ipniSearch := fun _ _ _ => Except.error ()
  powoLookup := fun _ => Except.error ()
  gtsGet := fun genus _ =>
    if genus = "Alpha" then Except.ok ⟨[["Atlantis"]]⟩ else Except.error ()
  reply := fun _ => "n"

/-- C4 witness: a three-row batch whose second row aborts; the first row
keeps its filled `Atlantis`, the aborting and remaining rows keep the empty
string, and the outcome is the emitted `aborted` column. -/
theorem C4_abort_terminates_batch_witness :
    runBatch envPartial st0
        [(some "Alpha beta", some "X"), (some "Quercus robur", some "L."),
          (some "Abies alba", some "M.")]
      = ({ TOTAL_NAMES_PROCESSED := 2, TOTAL_LOCATION_QUERIES_SUCCEEDED := 1,
           log := [Query.ipni "Alpha" "beta" "X", Query.gts "Alpha" "beta",
             Query.ipni "Quercus" "robur" "L.",
             Query.gts "Quercus" "robur"] },
         BatchOutcome.aborted ["Atlantis", "", ""]) :=
  C4_abort_terminates_batch envPartial
    { TOTAL_NAMES_PROCESSED := 1, TOTAL_LOCATION_QUERIES_SUCCEEDED := 1,
      log := [Query.ipni "Alpha" "beta" "X", Query.gts "Alpha" "beta"] }
    { TOTAL_NAMES_PROCESSED := 2, TOTAL_LOCATION_QUERIES_SUCCEEDED := 1,
      log := [Query.ipni "Alpha" "beta" "X", Query.gts "Alpha" "beta",
        Query.ipni "Quercus" "robur" "L.", Query.gts "Quercus" "robur"] }
    "Quercus robur" "L." [(some "Abies alba", some "M.")]
    [(some "Alpha beta", some "X")] st0 ["Atlantis"] (by decide) rfl
